import Mathlib

/-!
# caffeCoder: the frame relay adapter of `modules/caffeCoder/src/main.cpp`

A shallow embedding of `CaffeCoderPort` (its constructor, the frame callback
`onRead` and the command dispatcher `execReq`) together with the small part of
the C library and of YARP that the class talks to.

Modelling conventions.

* Byte strings (`std::string`, `ConstString`) are Lean strings; `c_str()` cuts a
  string at its first NUL character.
* `double` values that the program only compares (`Time::now()`, `rate`,
  `last_read`) are rationals.  Feature values are never computed with: a
  `float` is an uninterpreted bit pattern and the `double` obtained from it by
  the (exact) widening conversion is represented by the float it came from.
* A regular file is represented by its length in bytes.  A stream writes at the
  end of its file: every stream the program opens is opened in a `w` mode and is
  never repositioned.  Buffering inside `FILE` objects is not modelled.
* `FILE*` values are addresses; which addresses are open streams is part of the
  `World`.  A call whose behaviour the C standard leaves undefined (`fwrite` or
  `fclose` on something that is not an open stream) is recorded as an event and
  otherwise has no effect in the model.
* `Semaphore mutex` is its counter.  The operations are run one after the
  other, so a `wait()` on a zero counter never returns: no operation is in
  progress that could `post()`.
* Everything observable that an operation does is returned as a list of
  `Event`s, in program order.
-/

namespace CaffeCoder

/-! ## YARP values, bottles and vocabs -/

/-- A YARP `Value` as far as the dispatcher looks at it. -/
inductive Value where
  | null
  | int (n : Int)
  | str (s : String)
  | vocab (code : Int)
deriving DecidableEq, Repr

/-- A YARP `Bottle`: a list of values. -/
abbrev Bottle := List Value

/-- YARP macro `VOCAB4(a,b,c,d)`: `(d<<24)+(c<<16)+(b<<8)+a`. -/
def VOCAB4 (a b c d : Char) : Int :=
  ((d.toNat * 2 ^ 24 + c.toNat * 2 ^ 16 + b.toNat * 2 ^ 8 + a.toNat : Nat) : Int)

def CMD_HELP : Int := VOCAB4 'h' 'e' 'l' 'p'
def DUMP_CODE : Int := VOCAB4 'd' 'u' 'm' 'p'
def DUMP_STOP : Int := VOCAB4 's' 't' 'o' 'p'

/-- YARP `Vocab::encode`: the first four characters of the string, missing ones
taken as NUL, packed with `VOCAB4`. -/
def Vocab.encode (s : String) : Int :=
  VOCAB4 (s.data.getD 0 '\x00') (s.data.getD 1 '\x00') (s.data.getD 2 '\x00') (s.data.getD 3 '\x00')

/-- YARP `Vocab::decode`: four times, take `code % 256` as a character unless it
is not positive, and divide `code` by 256 (C++ truncating division). -/
def Vocab.decode (code : Int) : String :=
  let step (acc : List Char × Int) : List Char × Int :=
    let ch := Int.tmod acc.2 256
    (if 0 < ch then acc.1 ++ [Char.ofNat ch.toNat] else acc.1, Int.tdiv acc.2 256)
  ⟨(step (step (step (step ([], code))))).1⟩

/-- `Value::asVocab()`. -/
def Value.asVocab : Value → Int
  | .null => 0
  | .int n => n
  | .str s => Vocab.encode s
  | .vocab c => c

/-- `Value::asString()`: the string of a string value, the text of a vocab
(`false` for 0, `true` for the character 1, else the decoded characters), and the
empty string for the other values. -/
def Value.asString : Value → String
  | .null => ""
  | .int _ => ""
  | .str s => s
  | .vocab c => if c = 0 then "false" else if c = ('1'.toNat : Int) then "true" else Vocab.decode c

/-- `Bottle::get(i)`: the null value when `i` is out of range. -/
def Bottle.get (b : Bottle) (i : Nat) : Value := b.getD i Value.null

/-- `Bottle::addString`. -/
def Bottle.addString (b : Bottle) (s : String) : Bottle := b ++ [Value.str s]

/-- `Bottle::add`. -/
def Bottle.add (b : Bottle) (v : Value) : Bottle := b ++ [v]

/-- `std::string::c_str()` read back as a string: everything before the first NUL. -/
def c_str (s : String) : String := ⟨s.data.takeWhile (fun c => c ≠ '\x00')⟩

/-! ## Files and streams -/

/-- A `FILE*` value. `indeterminate` is the value of a pointer that was never
assigned. -/
inductive FilePtr where
  | indeterminate
  | null
  | addr (a : Nat)
deriving DecidableEq, Repr

/-- The file system: the regular files with their length in bytes, and the
paths that the process cannot open (missing directory, no permission, ...). -/
structure FileSys where
  files : List (String × Nat)
  denied : List String
deriving DecidableEq, Repr

/-- Length of the file at `path`, if there is one. -/
def FileSys.size (fs : FileSys) (path : String) : Option Nat := fs.files.lookup path

/-- The file system with the file at `path` created or replaced, of length `n`. -/
def FileSys.put (fs : FileSys) (path : String) (n : Nat) : FileSys :=
  { fs with files := (path, n) :: fs.files.filter (fun e => e.1 ≠ path) }

/-- What lies outside the process: the file system, the open streams
(address of the `FILE` object and path of its file) and the next free address. -/
structure World where
  fs : FileSys
  streams : List (Nat × String)
  next : Nat
deriving DecidableEq, Repr

/-- Path of the file behind `p` when `p` is an open stream. -/
def World.streamPath (w : World) : FilePtr → Option String
  | .addr a => w.streams.lookup a
  | _ => none

/-- Whether `p` is an open stream. -/
def World.isOpen (w : World) (p : FilePtr) : Bool := (w.streamPath p).isSome

/-- C `fopen(path, mode)`.  The empty path and the denied paths cannot be
opened.  A mode starting with `w` creates the file or truncates it to length
zero; one starting with `a` creates the file if needed and keeps its bytes; one
starting with `r` needs the file to exist; any other mode string is invalid and
yields `NULL`. -/
def fopen (w : World) (path mode : String) : FilePtr × World :=
  if path = "" ∨ path ∈ w.fs.denied then (FilePtr.null, w)
  else
    let opened (fs : FileSys) : FilePtr × World :=
      (FilePtr.addr w.next, { fs := fs, streams := (w.next, path) :: w.streams, next := w.next + 1 })
    match mode.data.head? with
    | some 'w' => opened (w.fs.put path 0)
    | some 'a' => opened (w.fs.put path ((w.fs.size path).getD 0))
    | some 'r' => if (w.fs.size path).isSome then opened w.fs else (FilePtr.null, w)
    | _ => (FilePtr.null, w)

/-- C `fwrite(ptr, size, count, stream)` on a stream positioned at the end of
its file: the file grows by `size * count` bytes.  On anything that is not an
open stream the call is undefined and the model leaves the world as it is. -/
def fwrite (w : World) (size count : Nat) (stream : FilePtr) : World :=
  match w.streamPath stream with
  | some path => { w with fs := w.fs.put path ((w.fs.size path).getD 0 + size * count) }
  | none => w

/-- C `fclose(stream)`: the stream is no longer open.  On anything that is not
an open stream the call is undefined and the model leaves the world as it is. -/
def fclose (w : World) : FilePtr → World
  | .addr a => { w with streams := w.streams.filter (fun e => e.1 ≠ a) }
  | _ => w

/-! ## Images, feature vectors, the extractor -/

/-- Envelope of a message: YARP `Stamp` (sequence number and time); a default
constructed stamp has sequence number -1 and time 0. -/
structure Stamp where
  count : Int
  time : ℚ
deriving DecidableEq, Repr

/-- An inbound YARP image: dimensions and RGB pixels. -/
structure Image where
  width : Nat
  height : Nat
  data : List (Nat × Nat × Nat)
deriving DecidableEq, Repr

/-- An OpenCV matrix of three-channel pixels. -/
structure Mat where
  cols : Nat
  rows : Nat
  data : List (Nat × Nat × Nat)
deriving DecidableEq, Repr

/-- The two OpenCV calls `cvarrToMat` and `cvtColor(.., CV_RGB2BGR)`: same
dimensions, first and third channel of every pixel exchanged. -/
def cvtColor_RGB2BGR (img : Image) : Mat :=
  { cols := img.width, rows := img.height, data := img.data.map (fun p => (p.2.2, p.2.1, p.1)) }

/-- A C `float`, as a bit pattern that is never interpreted. -/
structure CFloat where
  bits : Nat
deriving DecidableEq, Repr

/-- A C `double` obtained from a `float` by conversion. -/
structure CDouble where
  ofFloat : CFloat
deriving DecidableEq, Repr

/-- The C operator `sizeof(float)`. -/
def sizeofFloat : Nat := 4

/-- The C operator `sizeof(double)`. -/
def sizeofDouble : Nat := 8

/-- What one call of `extract_singleFeat_1D(image, features, times)` leaves
behind: its return value, the vector `features`, the array `times` and the
extractor itself. -/
structure Extraction (σ : Type) where
  ok : Bool
  features : List CFloat
  times : CFloat × CFloat
  state : σ

/-- The external `CaffeFeatExtractor<float>`: its public flag `timing` and the
method `extract_singleFeat_1D`, which receives the extractor, the image and the
current contents of the vector passed by reference. -/
structure Extractor (σ : Type) where
  timing : Bool
  extract_singleFeat_1D : σ → Mat → List CFloat → Extraction σ

/-! ## Observable events -/

/-- Everything an operation of the adapter does that can be seen from outside. -/
inductive Event where
  | extract (image : Mat) (ok : Bool)
  | cout (line : String)
  | coutTimes (prep net : CFloat)
  | fopen (path mode : String) (result : FilePtr)
  | fwrite (stream : FilePtr) (size count : Nat)
  | fclose (stream : FilePtr)
  | writeCode (envelope : Stamp) (v : List CDouble)
  | writeImg (img : Image)
deriving DecidableEq, Repr

/-- The event is a write to the dump file. -/
def Event.isDumpWrite : Event → Bool
  | .fwrite _ _ _ => true
  | _ => false

/-- The event is an invocation of the extractor. -/
def Event.isExtract : Event → Bool
  | .extract _ _ => true
  | _ => false

/-- The event is a message on `code:o`. -/
def Event.isCodePublish : Event → Bool
  | .writeCode _ _ => true
  | _ => false

/-- The event is a message on `img:o`. -/
def Event.isImgPublish : Event → Bool
  | .writeImg _ => true
  | _ => false

/-- Number of bytes handed to `fwrite` by the event. -/
def Event.bytesWritten : Event → Nat
  | .fwrite _ size count => size * count
  | _ => 0

/-! ## The adapter -/

/-- The data members of `CaffeCoderPort` that the callback and the dispatcher
read or write.  `readEnvelope` belongs to the base class `BufferedPort<Image>`
(the envelope of the message being delivered, returned by `getEnvelope`), and
`port_out_code` is the envelope held by that output port. -/
structure CaffeCoderPort (σ : Type) where
  contextPath : String
  dump_code : Bool
  rate : ℚ
  last_read : ℚ
  matImg : Mat
  port_out_code : Stamp
  fout_code : FilePtr
  mutex : Nat
  caffe_extractor : σ
  readEnvelope : Stamp

/-- What the callback reads from its surroundings while it runs: `Time::now()`
and the `getOutputCount()` of the two output ports. -/
structure Env where
  now : ℚ
  codeOutputs : Nat
  imgOutputs : Nat
deriving DecidableEq, Repr

/-- Result of running a member function: the object and the world afterwards,
the events in program order, and whether the call returned (`false`: it is
blocked in `mutex.wait()` for ever). -/
structure Outcome (σ : Type) where
  port : CaffeCoderPort σ
  world : World
  events : List Event
  returned : Bool

/-- The startup options read by the constructor: `getHomeContextPath()`,
`rate` (default `0.0`), `dump_code` (absent, or present with the string value
of the option) and whether `append` is present. -/
structure Config where
  contextPath : String
  rate : Option ℚ
  dump_code : Option String
  append : Bool

/-- The constructor `CaffeCoderPort::CaffeCoderPort`. `mutex` is a YARP
`Semaphore` with its default initial count 1; `fout_code` is assigned only when
`dump_code` is given. -/
def CaffeCoderPort.new {σ : Type} (cfg : Config) (extractor : σ) (w : World) :
    CaffeCoderPort σ × World × List Event :=
  let contextPath := c_str cfg.contextPath
  let rate := cfg.rate.getD 0
  let last_read : ℚ := 0
  let dump_code := cfg.dump_code.isSome
  let code_path := contextPath ++ "/" ++ c_str (cfg.dump_code.getD "codes.bin")
  let code_write_mode := if cfg.append then "wb+" else "wb"
  let o := if dump_code then fopen w (c_str code_path) (c_str code_write_mode) else (FilePtr.indeterminate, w)
  ({ contextPath := contextPath, dump_code := dump_code, rate := rate, last_read := last_read,
     matImg := { cols := 0, rows := 0, data := [] }, port_out_code := { count := -1, time := 0 },
     fout_code := o.1, mutex := 1, caffe_extractor := extractor,
     readEnvelope := { count := -1, time := 0 } },
   o.2,
   if dump_code then [Event.fopen (c_str code_path) (c_str code_write_mode) o.1] else [])

/-- The frame callback `CaffeCoderPort::onRead`. -/
def onRead {σ : Type} (ex : Extractor σ) (env : Env) (s : CaffeCoderPort σ) (w : World)
    (img : Image) : Outcome σ :=
  -- Read at specified rate
  if env.now - s.last_read < s.rate then
    { port := s, world := w, events := [], returned := true }
  -- mutex.wait()
  else if s.mutex = 0 then
    { port := s, world := w, events := [], returned := false }
  else
    let s := { s with mutex := s.mutex - 1 }
    -- If something arrived...
    if 0 < img.width ∧ 0 < img.height then
      let s := { s with matImg := cvtColor_RGB2BGR img }
      -- Extract the feature vector: two calls, the result of the second is tested
      let r1 := ex.extract_singleFeat_1D s.caffe_extractor s.matImg []
      let r2 := ex.extract_singleFeat_1D r1.state s.matImg r1.features
      let s := { s with caffe_extractor := r2.state }
      let evExtract := [Event.extract s.matImg r1.ok, Event.extract s.matImg r2.ok]
      if r2.ok = false then
        -- return, without mutex.post()
        { port := s, world := w, returned := true,
          events := evExtract ++ [Event.cout "CaffeFeatExtractor::extract_singleFeat_1D(): failed..."] }
      else
        let codingVec := r2.features.map CDouble.mk
        let evTiming := if ex.timing then [Event.coutTimes r2.times.1 r2.times.2] else []
        -- Dump if required
        let w := if s.dump_code then fwrite w sizeofDouble codingVec.length s.fout_code else w
        let evDump := if s.dump_code then [Event.fwrite s.fout_code sizeofDouble codingVec.length] else []
        let stamp := s.readEnvelope
        let evCode := if env.codeOutputs ≠ 0 then [Event.writeCode stamp codingVec] else []
        let s := if env.codeOutputs ≠ 0 then { s with port_out_code := stamp } else s
        let evImg := if env.imgOutputs ≠ 0 then [Event.writeImg img] else []
        -- mutex.post()
        { port := { s with mutex := s.mutex + 1 }, world := w, returned := true,
          events := evExtract ++ evTiming ++ evDump ++ evCode ++ evImg }
    else
      -- mutex.post()
      { port := { s with mutex := s.mutex + 1 }, world := w, events := [], returned := true }

/-- Delivery of one message of `img:i` by the base class: the envelope of the
message becomes the one `getEnvelope` returns, then `onRead` runs on the image. -/
def deliver {σ : Type} (ex : Extractor σ) (env : Env) (s : CaffeCoderPort σ) (w : World)
    (img : Image) (envelope : Stamp) : Outcome σ :=
  onRead ex env { s with readEnvelope := envelope } w img

/-- Usage line of the `dump` command, as sent by `help`. -/
def usageDump : String :=
  "[dump] [path-to-file] [a] to start dumping the codes in the context directory. Use 'a' for appending."

/-- Usage line of the `stop` command, as sent by `help`. -/
def usageStop : String := "[stop] to stop dumping."

/-- Result of `execReq`: as for `Outcome`, with the reply bottle and the
returned boolean (`none`: blocked in `mutex.wait()`). -/
structure ReqOutcome (σ : Type) where
  port : CaffeCoderPort σ
  world : World
  events : List Event
  reply : Bottle
  result : Option Bool

/-- The command dispatcher `CaffeCoderPort::execReq`. -/
def execReq {σ : Type} (s : CaffeCoderPort σ) (w : World) (command reply : Bottle) :
    ReqOutcome σ :=
  let verb := (Bottle.get command 0).asVocab
  if verb = CMD_HELP then
    let reply : Bottle := []
    let reply := Bottle.add reply (Value.vocab (Vocab.encode "many"))
    let reply := Bottle.addString reply usageDump
    let reply := Bottle.addString reply usageStop
    { port := s, world := w, events := [], reply := reply, result := some true }
  else if verb = DUMP_CODE then
    if s.mutex = 0 then
      { port := s, world := w, events := [], reply := reply, result := none }
    else
      let s := { s with mutex := s.mutex - 1 }
      let s := { s with dump_code := true }
      let pm : String × String :=
        if command.length = 1 then
          (s.contextPath ++ "/codes.bin", "wb")
        else if command.length = 2 then
          if c_str (Bottle.get command 1).asString = "a" then
            (s.contextPath ++ "/codes.bin", "wb+")
          else
            (c_str (Bottle.get command 1).asString, "wb")
        else if command.length = 3 then
          (c_str (Bottle.get command 2).asString, "wb+")
        else
          ("", "")
      let code_path := pm.1
      let code_write_mode := pm.2
      let o := fopen w (c_str code_path) (c_str code_write_mode)
      let s := { s with fout_code := o.1 }
      let reply := Bottle.addString reply "Start dumping codes..."
      { port := { s with mutex := s.mutex + 1 }, world := o.2,
        events := [Event.fopen (c_str code_path) (c_str code_write_mode) o.1],
        reply := reply, result := some true }
  else if verb = DUMP_STOP then
    if s.mutex = 0 then
      { port := s, world := w, events := [], reply := reply, result := none }
    else
      let s := { s with mutex := s.mutex - 1 }
      let s := { s with dump_code := false }
      let w := fclose w s.fout_code
      let reply := Bottle.addString reply "Stopped code dump."
      { port := { s with mutex := s.mutex + 1 }, world := w,
        events := [Event.fclose s.fout_code], reply := reply, result := some true }
  else
    { port := s, world := w, events := [], reply := reply, result := some false }

/-! ## Runs -/

/-- One thing that happens to the adapter: a message on `img:i` or a command
on the control channel. -/
inductive Input where
  | frame (env : Env) (img : Image) (envelope : Stamp)
  | command (b : Bottle)

/-- The adapter with its surroundings and the events so far. -/
structure System (σ : Type) where
  port : CaffeCoderPort σ
  world : World
  trace : List Event

/-- The system right after construction. -/
def System.start {σ : Type} (cfg : Config) (extractor : σ) (w : World) : System σ :=
  let c := CaffeCoderPort.new cfg extractor w
  { port := c.1, world := c.2.1, trace := c.2.2 }

/-- One input handled: the callback for a frame, `execReq` on a fresh reply for
a command (as `CaffeCoderModule::respond` is called). -/
def System.step {σ : Type} (ex : Extractor σ) (st : System σ) : Input → System σ
  | .frame env img envelope =>
    let o := deliver ex env st.port st.world img envelope
    { port := o.port, world := o.world, trace := st.trace ++ o.events }
  | .command b =>
    let o := execReq st.port st.world b []
    { port := o.port, world := o.world, trace := st.trace ++ o.events }

/-- A sequence of inputs handled one after the other. -/
def System.run {σ : Type} (ex : Extractor σ) (st : System σ) (inputs : List Input) : System σ :=
  inputs.foldl (System.step ex) st

/-- The extractor call whose return value `onRead` tests: the second of the two
calls, which receives the extractor and the vector as the first call left them. -/
def checkedExtraction {σ : Type} (ex : Extractor σ) (extractor : σ) (img : Image) : Extraction σ :=
  let first := ex.extract_singleFeat_1D extractor (cvtColor_RGB2BGR img) []
  ex.extract_singleFeat_1D first.state (cvtColor_RGB2BGR img) first.features

/-! ## Concrete inputs -/

/-- A test extractor: its state counts its invocations, it reports `ok` and
stores `v` in the vector. -/
def countingExtractor (ok : Bool) (v : List CFloat) : Extractor Nat :=
  { timing := false,
    extract_singleFeat_1D := fun n _ _ =>
      { ok := ok, features := v, times := (⟨0⟩, ⟨0⟩), state := n + 1 } }

/-- The floats 1.0, 2.0, 3.0. -/
def vec123 : List CFloat := [⟨0x3F800000⟩, ⟨0x40000000⟩, ⟨0x40400000⟩]

/-- A world without files and without open streams. -/
def emptyWorld : World := { fs := { files := [], denied := [] }, streams := [], next := 1 }

/-- A world in which the default dump file already holds 24 bytes, and so does
a file `a` in the working directory. -/
def worldWithDump : World :=
  { fs := { files := [("/ctx/codes.bin", 24), ("a", 24)], denied := [] }, streams := [], next := 1 }

/-- Startup options: context directory `/ctx`, nothing else given. -/
def plainConfig : Config := { contextPath := "/ctx", rate := none, dump_code := none, append := false }

/-- Startup options: context directory `/ctx` and `rate` 1. -/
def rateOneConfig : Config := { contextPath := "/ctx", rate := some 1, dump_code := none, append := false }

/-- A frame of one pixel. -/
def frame1x1 : Image := { width := 1, height := 1, data := [(10, 20, 30)] }

/-- Surroundings of a callback at time `t`, one subscriber on each output. -/
def envAt (t : ℚ) : Env := { now := t, codeOutputs := 1, imgOutputs := 1 }

/-- The adapter right after construction from `plainConfig`. -/
def freshPort : CaffeCoderPort Nat := (CaffeCoderPort.new plainConfig 0 emptyWorld).1

/-- The adapter right after construction from `rateOneConfig`. -/
def rateOnePort : CaffeCoderPort Nat := (CaffeCoderPort.new rateOneConfig 0 emptyWorld).1

/-- The command `dump x y z`. -/
def dumpThreeArgs : Bottle := [Value.str "dump", Value.str "x", Value.str "y", Value.str "z"]

/-- The system after construction from `plainConfig` and the command
`dump x y z`. -/
def afterDumpThreeArgs : System Nat :=
  System.run (countingExtractor true vec123) (System.start plainConfig 0 emptyWorld)
    [Input.command dumpThreeArgs]

/-- The callback on a first frame at time 1700000000, rate 1. -/
def firstFrame : Outcome Nat :=
  deliver (countingExtractor true vec123) (envAt 1700000000) rateOnePort emptyWorld frame1x1
    { count := 1, time := 1700000000 }

/-- The callback on a second frame, half a second after `firstFrame`. -/
def secondFrame : Outcome Nat :=
  deliver (countingExtractor true vec123) (envAt (3400000001 / 2)) firstFrame.port firstFrame.world frame1x1
    { count := 2, time := 3400000001 / 2 }

/-- The adapter after construction from `plainConfig` and the command `dump`. -/
def afterDump : ReqOutcome Nat := execReq freshPort emptyWorld [Value.str "dump"] []

/-- The callback on one frame while the dump started by `afterDump` is active,
the extractor producing three values. -/
def dumpedFrame : Outcome Nat :=
  onRead (countingExtractor true vec123) (envAt 1700000000) afterDump.port afterDump.world frame1x1

/-- The callback on one frame right after construction, the extractor failing. -/
def failedFrame : Outcome Nat :=
  onRead (countingExtractor false []) (envAt 1700000000) freshPort emptyWorld frame1x1

/-- A test extractor that fails on its first invocation and on every other one
after it, and succeeds in between: its state counts the invocations, the call
made in state `n` reports success exactly when `n` is odd, and stores `v` in
the vector. -/
def flakyExtractor (v : List CFloat) : Extractor Nat :=
  { timing := false,
    extract_singleFeat_1D := fun n _ _ =>
      { ok := decide (n % 2 = 1), features := v, times := (⟨0⟩, ⟨0⟩), state := n + 1 } }

/-- The callback on one frame while the dump started by `afterDump` is active,
with the extractor `flakyExtractor`: the first call on the frame reports
failure, the second one success. -/
def flakyFrame : Outcome Nat :=
  onRead (flakyExtractor vec123) (envAt 1700000000) afterDump.port afterDump.world frame1x1

/-! ## The callback, case by case -/

/-- The callback blocks when the frame passes the rate gate and the mutex is
taken. -/
theorem onRead_of_taken {σ : Type} (ex : Extractor σ) (env : Env)
    (s : CaffeCoderPort σ) (w : World) (img : Image)
    (hrate : ¬ env.now - s.last_read < s.rate) (hmutex : s.mutex = 0) :
    onRead ex env s w img = { port := s, world := w, events := [], returned := false } := by
  simp [onRead, hrate, hmutex]

/-- The callback on a frame that passes the rate gate and finds the mutex free,
when the tested extractor call fails. -/
theorem onRead_of_failure {σ : Type} (ex : Extractor σ) (env : Env)
    (s : CaffeCoderPort σ) (w : World) (img : Image)
    (hrate : ¬ env.now - s.last_read < s.rate) (hmutex : s.mutex ≠ 0)
    (hdim : 0 < img.width ∧ 0 < img.height)
    (hfail : (checkedExtraction ex s.caffe_extractor img).ok = false) :
    onRead ex env s w img =
      { port := { s with mutex := s.mutex - 1, matImg := cvtColor_RGB2BGR img,
                         caffe_extractor := (checkedExtraction ex s.caffe_extractor img).state },
        world := w,
        events := [Event.extract (cvtColor_RGB2BGR img)
                     (ex.extract_singleFeat_1D s.caffe_extractor (cvtColor_RGB2BGR img) []).ok,
                   Event.extract (cvtColor_RGB2BGR img) false,
                   Event.cout "CaffeFeatExtractor::extract_singleFeat_1D(): failed..."],
        returned := true } := by
  unfold checkedExtraction at hfail ⊢
  simp only [] at hfail ⊢
  simp [onRead, hrate, hmutex, hdim, hfail]

/-- The callback on a frame that passes the rate gate and finds the mutex free,
when the tested extractor call succeeds. -/
theorem onRead_of_success {σ : Type} (ex : Extractor σ) (env : Env)
    (s : CaffeCoderPort σ) (w : World) (img : Image)
    (hrate : ¬ env.now - s.last_read < s.rate) (hmutex : s.mutex ≠ 0)
    (hdim : 0 < img.width ∧ 0 < img.height)
    (hok : (checkedExtraction ex s.caffe_extractor img).ok = true) :
    onRead ex env s w img =
      { port := { s with mutex := s.mutex - 1 + 1, matImg := cvtColor_RGB2BGR img,
                         caffe_extractor := (checkedExtraction ex s.caffe_extractor img).state,
                         port_out_code := if env.codeOutputs ≠ 0 then s.readEnvelope else s.port_out_code },
        world := if s.dump_code then
            fwrite w sizeofDouble (checkedExtraction ex s.caffe_extractor img).features.length s.fout_code
          else w,
        events :=
          [Event.extract (cvtColor_RGB2BGR img)
             (ex.extract_singleFeat_1D s.caffe_extractor (cvtColor_RGB2BGR img) []).ok,
           Event.extract (cvtColor_RGB2BGR img) true]
          ++ (if ex.timing then [Event.coutTimes (checkedExtraction ex s.caffe_extractor img).times.1
                (checkedExtraction ex s.caffe_extractor img).times.2] else [])
          ++ (if s.dump_code then [Event.fwrite s.fout_code sizeofDouble
                (checkedExtraction ex s.caffe_extractor img).features.length] else [])
          ++ (if env.codeOutputs ≠ 0 then [Event.writeCode s.readEnvelope
                ((checkedExtraction ex s.caffe_extractor img).features.map CDouble.mk)] else [])
          ++ (if env.imgOutputs ≠ 0 then [Event.writeImg img] else []),
        returned := true } := by
  unfold checkedExtraction at hok ⊢
  simp only [] at hok ⊢
  simp [onRead, hrate, hmutex, hdim, hok]
  split_ifs <;> simp_all

/-- When the extractor call that `onRead` tests (the second one) reports
failure on a frame with non-zero dimensions that passes the rate gate, `onRead`
makes no write to the dump file, publishes nothing on `code:o` or `img:o`, and
leaves the files, `dump_code` and `fout_code` as they were. -/
theorem onRead_tested_failure_drops_frame {σ : Type} (ex : Extractor σ) (env : Env)
    (s : CaffeCoderPort σ) (w : World) (img : Image)
    (hrate : ¬ env.now - s.last_read < s.rate)
    (hdim : 0 < img.width ∧ 0 < img.height)
    (hfail : (checkedExtraction ex s.caffe_extractor img).ok = false) :
    (∀ e ∈ (onRead ex env s w img).events,
        e.isDumpWrite = false ∧ e.isCodePublish = false ∧ e.isImgPublish = false) ∧
      (onRead ex env s w img).world = w ∧
      (onRead ex env s w img).port.dump_code = s.dump_code ∧
      (onRead ex env s w img).port.fout_code = s.fout_code ∧
      (s.mutex ≠ 0 → (onRead ex env s w img).returned = true) := by
  by_cases hm : s.mutex = 0
  · rw [onRead_of_taken ex env s w img hrate hm]
    simp [hm]
  · rw [onRead_of_failure ex env s w img hrate hm hdim hfail]
    simp [Event.isDumpWrite, Event.isCodePublish, Event.isImgPublish]

/-- Length of a file right after it was put. -/
theorem FileSys.size_put (fs : FileSys) (path : String) (n : Nat) :
    (fs.put path n).size path = some n := by
  simp [FileSys.size, FileSys.put, List.lookup]

/-- Every frame passes the rate gate of `freshPort` at time 1700000000. -/
theorem freshPort_gate : ¬ (envAt 1700000000).now - freshPort.last_read < freshPort.rate := by
  show ¬ ((1700000000 : ℚ) - 0 < 0)
  norm_num

/-- The first frame of the rate-1 scenario is processed in full. -/
theorem firstFrame_eq :
    firstFrame =
      { port := { rateOnePort with caffe_extractor := 2, matImg := cvtColor_RGB2BGR frame1x1,
                                   readEnvelope := { count := 1, time := 1700000000 },
                                   port_out_code := { count := 1, time := 1700000000 } },
        world := emptyWorld,
        events := [Event.extract (cvtColor_RGB2BGR frame1x1) true,
                   Event.extract (cvtColor_RGB2BGR frame1x1) true,
                   Event.writeCode { count := 1, time := 1700000000 } (vec123.map CDouble.mk),
                   Event.writeImg frame1x1],
        returned := true } := by
  unfold firstFrame deliver
  rw [onRead_of_success _ _ _ _ _ (by show ¬ ((1700000000 : ℚ) - 0 < 1); norm_num) (by decide) (by decide)
    (by decide)]
  rfl

/-! ## The claims -/

/-- Claim C1 (dump-state invariant), evaluated on the code: after construction
without `dump_code`, the command `dump x y z` returns with `dump_code` set while
`fout_code` is `NULL`, which is not an open stream; the callback on the next
frame then calls `fwrite` on that `NULL` handle. -/
theorem C1_dump_flag_set_with_null_handle :
    afterDumpThreeArgs.port.dump_code = true ∧
      afterDumpThreeArgs.port.fout_code = FilePtr.null ∧
      afterDumpThreeArgs.world.isOpen afterDumpThreeArgs.port.fout_code = false ∧
      (System.step (countingExtractor true vec123) afterDumpThreeArgs
          (Input.frame (envAt 1700000000) frame1x1 { count := 1, time := 1700000000 })).trace =
        [Event.fopen "" "" FilePtr.null,
         Event.extract (cvtColor_RGB2BGR frame1x1) true,
         Event.extract (cvtColor_RGB2BGR frame1x1) true,
         Event.fwrite FilePtr.null sizeofDouble 3,
         Event.writeCode { count := 1, time := 1700000000 } (vec123.map CDouble.mk),
         Event.writeImg frame1x1] := by
  refine ⟨by decide, by decide, by decide, ?_⟩
  unfold System.step deliver
  simp only []
  rw [onRead_of_success _ _ _ _ _ (by show ¬ ((1700000000 : ℚ) - 0 < 0); norm_num) (by decide) (by decide)
    (by decide)]
  decide

/-- Claim C2 (lock release), evaluated on the code: on a one-pixel frame whose
extraction fails, `onRead` takes the mutex (counter 1 before), returns, and the
counter is still 0 afterwards; the callback on the next frame never returns. -/
theorem C2_mutex_held_after_failed_extraction :
    freshPort.mutex = 1 ∧
      failedFrame.returned = true ∧
      failedFrame.port.mutex = 0 ∧
      (onRead (countingExtractor true vec123) (envAt 1700000000) failedFrame.port failedFrame.world
        frame1x1).returned = false := by
  have h : failedFrame = _ :=
    onRead_of_failure (countingExtractor false []) (envAt 1700000000) freshPort emptyWorld frame1x1
      freshPort_gate (by decide) (by decide) (by decide)
  refine ⟨by decide, ?_, ?_, ?_⟩
  · rw [h]
  · rw [h]; decide
  · rw [h, onRead_of_taken _ _ _ _ _ (by show ¬ ((1700000000 : ℚ) - 0 < 0); norm_num) (by decide)]

/-- Claim C3 (throttle), evaluated on the code: with `rate` 1, a frame is
processed at time 1700000000 and a second frame arrives half a second later, which is
less than `1/rate` seconds; the callback does not skip it: `last_read` is still
0, the extractor is invoked and the vector and the image are published. -/
theorem C3_frame_inside_interval_is_processed :
    0 < rateOnePort.rate ∧
      firstFrame.events.filter Event.isExtract ≠ [] ∧
      (3400000001 / 2 : ℚ) - 1700000000 < 1 / firstFrame.port.rate ∧
      firstFrame.port.last_read = 0 ∧
      secondFrame.events =
        [Event.extract (cvtColor_RGB2BGR frame1x1) true,
         Event.extract (cvtColor_RGB2BGR frame1x1) true,
         Event.writeCode { count := 2, time := 3400000001 / 2 } (vec123.map CDouble.mk),
         Event.writeImg frame1x1] ∧
      secondFrame.port.caffe_extractor = 4 := by
  refine ⟨by show (0 : ℚ) < 1; norm_num, ?_, ?_, ?_, ?_⟩
  · rw [firstFrame_eq]; decide
  · rw [firstFrame_eq]; show (3400000001 / 2 : ℚ) - 1700000000 < 1 / 1; norm_num
  · rw [firstFrame_eq]; rfl
  · unfold secondFrame deliver
    rw [firstFrame_eq, onRead_of_success _ _ _ _ _ (by show ¬ ((3400000001 / 2 : ℚ) - 0 < 1); norm_num)
      (by decide) (by decide) (by decide)]
    exact ⟨rfl, rfl⟩

/-- Claim C4 (append flag), evaluated on the code: the default dump file holds
24 bytes; the command `dump a` opens it with mode `wb+`, which truncates, and
the file is empty afterwards. The same happens to the file opened by
`dump /tmp/x.bin a`. -/
theorem C4_append_flag_truncates :
    worldWithDump.fs.size "/ctx/codes.bin" = some 24 ∧
      (execReq freshPort worldWithDump [Value.str "dump", Value.str "a"] []).events =
        [Event.fopen "/ctx/codes.bin" "wb+" (FilePtr.addr 1)] ∧
      (execReq freshPort worldWithDump [Value.str "dump", Value.str "a"] []).world.fs.size
        "/ctx/codes.bin" = some 0 ∧
      worldWithDump.fs.size "a" = some 24 ∧
      (execReq freshPort worldWithDump
        [Value.str "dump", Value.str "/tmp/x.bin", Value.str "a"] []).world.fs.size "a" = some 0 := by
  decide

/-- Claim C5 (path selection), evaluated on the code: the command
`dump /tmp/x.bin a` opens the file named `a`, the third element of the command,
and not `/tmp/x.bin`, which is not created; `dump`, `dump a` and
`dump /tmp/x.bin` open the default file, the default file and `/tmp/x.bin`. -/
theorem C5_three_element_dump_opens_the_flag :
    (execReq freshPort emptyWorld
        [Value.str "dump", Value.str "/tmp/x.bin", Value.str "a"] []).events =
        [Event.fopen "a" "wb+" (FilePtr.addr 1)] ∧
      (execReq freshPort emptyWorld
        [Value.str "dump", Value.str "/tmp/x.bin", Value.str "a"] []).world.streamPath
          (execReq freshPort emptyWorld
            [Value.str "dump", Value.str "/tmp/x.bin", Value.str "a"] []).port.fout_code = some "a" ∧
      (execReq freshPort emptyWorld
        [Value.str "dump", Value.str "/tmp/x.bin", Value.str "a"] []).world.fs.size "/tmp/x.bin" = none ∧
      (execReq freshPort emptyWorld [Value.str "dump"] []).events =
        [Event.fopen "/ctx/codes.bin" "wb" (FilePtr.addr 1)] ∧
      (execReq freshPort emptyWorld [Value.str "dump", Value.str "a"] []).events =
        [Event.fopen "/ctx/codes.bin" "wb+" (FilePtr.addr 1)] ∧
      (execReq freshPort emptyWorld [Value.str "dump", Value.str "/tmp/x.bin"] []).events =
        [Event.fopen "/tmp/x.bin" "wb" (FilePtr.addr 1)] := by
  decide

/-- Claim C6 as stated fails: with the dump active on the empty default file
and an extractor that returns three floats, the callback appends 24 bytes,
which is not `3 * sizeof(float)`. -/
theorem C6_record_is_not_float_sized :
    afterDump.port.dump_code = true ∧
      afterDump.world.streamPath afterDump.port.fout_code = some "/ctx/codes.bin" ∧
      (checkedExtraction (countingExtractor true vec123) afterDump.port.caffe_extractor frame1x1).ok = true ∧
      (checkedExtraction (countingExtractor true vec123) afterDump.port.caffe_extractor
        frame1x1).features.length = 3 ∧
      afterDump.world.fs.size "/ctx/codes.bin" = some 0 ∧
      dumpedFrame.world.fs.size "/ctx/codes.bin" = some 24 ∧
      ¬ ((dumpedFrame.world.fs.size "/ctx/codes.bin").getD 0 -
            (afterDump.world.fs.size "/ctx/codes.bin").getD 0 =
          (checkedExtraction (countingExtractor true vec123) afterDump.port.caffe_extractor
            frame1x1).features.length * sizeofFloat) := by
  have h : dumpedFrame = _ :=
    onRead_of_success (countingExtractor true vec123) (envAt 1700000000) afterDump.port afterDump.world
      frame1x1 (by show ¬ ((1700000000 : ℚ) - 0 < 0); norm_num) (by decide) (by decide) (by decide)
  refine ⟨by decide, by decide, by decide, by decide, by decide, ?_, ?_⟩
  · rw [h]; decide
  · rw [h]; decide

/-- Claim C6, amended: on a frame that passes the rate gate with the mutex
free and non-zero dimensions, when the tested extractor call succeeds while
`dump_code` is set and `fout_code` is an open stream, the callback makes one
`fwrite` of `vectorLength` items of `sizeof(double)` bytes, and the dump file
grows by `vectorLength * sizeof(double)` bytes. -/
theorem C6_dump_record_is_double_sized {σ : Type} (ex : Extractor σ) (env : Env)
    (s : CaffeCoderPort σ) (w : World) (img : Image) (path : String)
    (hrate : ¬ env.now - s.last_read < s.rate) (hmutex : s.mutex ≠ 0)
    (hdim : 0 < img.width ∧ 0 < img.height)
    (hok : (checkedExtraction ex s.caffe_extractor img).ok = true)
    (hdump : s.dump_code = true)
    (hopen : w.streamPath s.fout_code = some path) :
    (onRead ex env s w img).events.filter Event.isDumpWrite =
        [Event.fwrite s.fout_code sizeofDouble (checkedExtraction ex s.caffe_extractor img).features.length] ∧
      ((onRead ex env s w img).events.map Event.bytesWritten).sum =
        (checkedExtraction ex s.caffe_extractor img).features.length * sizeofDouble ∧
      (onRead ex env s w img).world.fs.size path =
        some ((w.fs.size path).getD 0 +
          (checkedExtraction ex s.caffe_extractor img).features.length * sizeofDouble) := by
  rw [onRead_of_success ex env s w img hrate hmutex hdim hok]
  refine ⟨?_, ?_, ?_⟩
  · simp only [hdump, if_true]
    split_ifs <;> simp [Event.isDumpWrite]
  · simp only [hdump, if_true]
    split_ifs <;> simp [Event.bytesWritten, Nat.mul_comm]
  · simp only [hdump, if_true, fwrite, hopen, FileSys.size_put, Nat.mul_comm]

/-- The amended claim C6 at a concrete input: the frame `dumpedFrame`. -/
theorem C6_dump_record_is_double_sized_witness :
    (¬ (envAt 1700000000).now - afterDump.port.last_read < afterDump.port.rate) ∧
      afterDump.port.mutex ≠ 0 ∧
      (0 < frame1x1.width ∧ 0 < frame1x1.height) ∧
      (checkedExtraction (countingExtractor true vec123) afterDump.port.caffe_extractor frame1x1).ok = true ∧
      afterDump.port.dump_code = true ∧
      afterDump.world.streamPath afterDump.port.fout_code = some "/ctx/codes.bin" ∧
      ((onRead (countingExtractor true vec123) (envAt 1700000000) afterDump.port afterDump.world
            frame1x1).events.filter Event.isDumpWrite =
          [Event.fwrite afterDump.port.fout_code sizeofDouble
            (checkedExtraction (countingExtractor true vec123) afterDump.port.caffe_extractor
              frame1x1).features.length] ∧
        ((onRead (countingExtractor true vec123) (envAt 1700000000) afterDump.port afterDump.world
            frame1x1).events.map Event.bytesWritten).sum =
          (checkedExtraction (countingExtractor true vec123) afterDump.port.caffe_extractor
            frame1x1).features.length * sizeofDouble ∧
        (onRead (countingExtractor true vec123) (envAt 1700000000) afterDump.port afterDump.world
            frame1x1).world.fs.size "/ctx/codes.bin" =
          some ((afterDump.world.fs.size "/ctx/codes.bin").getD 0 +
            (checkedExtraction (countingExtractor true vec123) afterDump.port.caffe_extractor
              frame1x1).features.length * sizeofDouble)) :=
  ⟨by show ¬ ((1700000000 : ℚ) - 0 < 0); norm_num, by decide, by decide, by decide, by decide, by decide,
    C6_dump_record_is_double_sized (countingExtractor true vec123) (envAt 1700000000) afterDump.port
      afterDump.world frame1x1 "/ctx/codes.bin" (by show ¬ ((1700000000 : ℚ) - 0 < 0); norm_num)
      (by decide) (by decide) (by decide) (by decide) (by decide)⟩

/-- Claim C7 (extraction failure drops the frame), evaluated on the code: while
a dump is active on the empty default file, a one-pixel frame passes the rate
gate and the extractor reports failure on it, in the first of the two calls
`onRead` makes; the result of that call is discarded, the second call succeeds,
and `onRead` writes 24 bytes to the dump file and publishes on `code:o` and on
`img:o`. -/
theorem C7_reported_failure_is_published :
    afterDump.port.dump_code = true ∧
      afterDump.world.fs.size "/ctx/codes.bin" = some 0 ∧
      ((flakyExtractor vec123).extract_singleFeat_1D afterDump.port.caffe_extractor
        (cvtColor_RGB2BGR frame1x1) []).ok = false ∧
      flakyFrame.events =
        [Event.extract (cvtColor_RGB2BGR frame1x1) false,
         Event.extract (cvtColor_RGB2BGR frame1x1) true,
         Event.fwrite (FilePtr.addr 1) sizeofDouble 3,
         Event.writeCode { count := -1, time := 0 } (vec123.map CDouble.mk),
         Event.writeImg frame1x1] ∧
      flakyFrame.world.fs.size "/ctx/codes.bin" = some 24 := by
  have h : flakyFrame = _ :=
    onRead_of_success (flakyExtractor vec123) (envAt 1700000000) afterDump.port afterDump.world
      frame1x1 (by show ¬ ((1700000000 : ℚ) - 0 < 0); norm_num) (by decide) (by decide) (by decide)
  refine ⟨by decide, by decide, by decide, ?_, ?_⟩
  · rw [h]; decide
  · rw [h]; decide

/-- Claim C8 (envelope preservation): when a frame with non-zero dimensions is
delivered, passes the rate gate with the mutex free, its tested extraction
succeeds and `code:o` has a subscriber, exactly one message is written to
`code:o`, and the envelope set on it is the envelope of the inbound frame. -/
theorem C8_envelope_preserved {σ : Type} (ex : Extractor σ) (env : Env)
    (s : CaffeCoderPort σ) (w : World) (img : Image) (envelope : Stamp)
    (hrate : ¬ env.now - s.last_read < s.rate) (hmutex : s.mutex ≠ 0)
    (hdim : 0 < img.width ∧ 0 < img.height)
    (hok : (checkedExtraction ex s.caffe_extractor img).ok = true)
    (hsub : env.codeOutputs ≠ 0) :
    (deliver ex env s w img envelope).events.filter Event.isCodePublish =
        [Event.writeCode envelope
          ((checkedExtraction ex s.caffe_extractor img).features.map CDouble.mk)] ∧
      (deliver ex env s w img envelope).port.port_out_code = envelope := by
  unfold deliver
  rw [onRead_of_success ex env { s with readEnvelope := envelope } w img hrate hmutex hdim hok]
  refine ⟨?_, ?_⟩
  · simp only [hsub, ne_eq, not_false_eq_true, if_true]
    split_ifs <;> simp [Event.isCodePublish]
  · simp [hsub]

/-- Claim C8 at a concrete input: a one-pixel frame with envelope (7, 1700000000)
right after construction. -/
theorem C8_envelope_preserved_witness :
    (¬ (envAt 1700000000).now - freshPort.last_read < freshPort.rate) ∧
      freshPort.mutex ≠ 0 ∧
      (0 < frame1x1.width ∧ 0 < frame1x1.height) ∧
      (checkedExtraction (countingExtractor true vec123) freshPort.caffe_extractor frame1x1).ok = true ∧
      (envAt 1700000000).codeOutputs ≠ 0 ∧
      ((deliver (countingExtractor true vec123) (envAt 1700000000) freshPort emptyWorld frame1x1
            { count := 7, time := 1700000000 }).events.filter Event.isCodePublish =
          [Event.writeCode { count := 7, time := 1700000000 }
            ((checkedExtraction (countingExtractor true vec123) freshPort.caffe_extractor
              frame1x1).features.map CDouble.mk)] ∧
        (deliver (countingExtractor true vec123) (envAt 1700000000) freshPort emptyWorld frame1x1
            { count := 7, time := 1700000000 }).port.port_out_code = { count := 7, time := 1700000000 }) :=
  ⟨freshPort_gate, by decide, by decide, by decide, by decide,
    C8_envelope_preserved (countingExtractor true vec123) (envAt 1700000000) freshPort emptyWorld frame1x1
      { count := 7, time := 1700000000 } freshPort_gate (by decide) (by decide) (by decide) (by decide)⟩

/-- Claim C9 as stated fails: the reply to `help` is not just the two usage
strings, its first element is the vocab `many`. -/
theorem C9_help_reply_has_a_third_element :
    (execReq freshPort emptyWorld [Value.str "help"] []).reply ≠
        [Value.str usageDump, Value.str usageStop] ∧
      (execReq freshPort emptyWorld [Value.str "help"] []).reply.length = 3 ∧
      (execReq freshPort emptyWorld [Value.str "help"] []).reply.head? =
        some (Value.vocab (Vocab.encode "many")) := by
  decide

/-- Claim C9, amended: in every state and for every incoming reply bottle,
`execReq` on a command whose verb is `help` returns true, the reply is the
vocab `many` followed by the dump usage line and the stop usage line and
nothing else, and the adapter (its dump state included), the files and the
streams are unchanged and nothing observable is done. -/
theorem C9_help_reply {σ : Type} (s : CaffeCoderPort σ) (w : World) (command reply : Bottle)
    (hverb : (Bottle.get command 0).asVocab = CMD_HELP) :
    (execReq s w command reply).result = some true ∧
      (execReq s w command reply).reply =
        [Value.vocab (Vocab.encode "many"), Value.str usageDump, Value.str usageStop] ∧
      (execReq s w command reply).port = s ∧
      (execReq s w command reply).world = w ∧
      (execReq s w command reply).events = [] := by
  simp [execReq, hverb, Bottle.add, Bottle.addString]

/-- The amended claim C9 at a concrete input: the command `help` with a reply
bottle that is not empty, while a dump is active. -/
theorem C9_help_reply_witness :
    (Bottle.get [Value.str "help"] 0).asVocab = CMD_HELP ∧
      ((execReq afterDump.port afterDump.world [Value.str "help"] [Value.int 5]).result = some true ∧
        (execReq afterDump.port afterDump.world [Value.str "help"] [Value.int 5]).reply =
          [Value.vocab (Vocab.encode "many"), Value.str usageDump, Value.str usageStop] ∧
        (execReq afterDump.port afterDump.world [Value.str "help"] [Value.int 5]).port = afterDump.port ∧
        (execReq afterDump.port afterDump.world [Value.str "help"] [Value.int 5]).world = afterDump.world ∧
        (execReq afterDump.port afterDump.world [Value.str "help"] [Value.int 5]).events = []) :=
  ⟨by decide, C9_help_reply afterDump.port afterDump.world [Value.str "help"] [Value.int 5] (by decide)⟩

/-- Claim C10 (extractor invoked once), evaluated on the code: on one accepted
frame `onRead` invokes the extractor twice, both when the tested call succeeds
and when it fails; the invocation counter of the extractor goes from 0 to 2. -/
theorem C10_extractor_invoked_twice :
    freshPort.caffe_extractor = 0 ∧
      ((onRead (countingExtractor true vec123) (envAt 1700000000) freshPort emptyWorld
        frame1x1).events.filter Event.isExtract).length = 2 ∧
      (onRead (countingExtractor true vec123) (envAt 1700000000) freshPort emptyWorld
        frame1x1).port.caffe_extractor = 2 ∧
      (failedFrame.events.filter Event.isExtract).length = 2 ∧
      failedFrame.port.caffe_extractor = 2 := by
  have hf : failedFrame = _ :=
    onRead_of_failure (countingExtractor false []) (envAt 1700000000) freshPort emptyWorld frame1x1
      freshPort_gate (by decide) (by decide) (by decide)
  rw [hf, onRead_of_success (countingExtractor true vec123) (envAt 1700000000) freshPort emptyWorld frame1x1
    freshPort_gate (by decide) (by decide) (by decide)]
  decide

end CaffeCoder
